import Mathlib

/-
Verification of the record-filtering, login and record-store logic of the
coaching-platform dashboard (src/coaching_platform.py).

Records are modelled as flat key-value rows (association lists of strings),
mirroring the Python dicts produced by to_dict(orient="records") and the
local session-state lists.  Python truthiness of an optional string value
(None and "" are falsy) is modelled explicitly, since apply_filters relies
on it through the `or` chain and the `if ts:` / `if workout and ...` guards.
Dates are modelled as Nat (any linearly ordered stand-in for datetime.date),
and the external dateutil parser is a parameter `parse : String -> Option Nat`
(`none` models a parse exception, caught by the bare `except: pass`).
-/

namespace CoachingPlatform

/-- A flat record: ordered key-value pairs with string fields, mirroring a
Python dict row. -/
abbrev Record := List (String × String)

/-- Dict lookup, mirroring Python `e.get(k)`: the value if the key is present,
else `none`. -/
def get (e : Record) (k : String) : Option String :=
  (e.find? (fun p => p.1 == k)).map (fun p => p.2)

/-- Python truthiness of an optional string: `None` and the empty string are
falsy, every other string is truthy. -/
def truthyStr : Option String → Bool
  | none => false
  | some s => !(s == "")

@[simp] theorem truthyStr_none : truthyStr none = false := rfl

@[simp] theorem truthyStr_some (s : String) : truthyStr (some s) = !(s == "") := rfl

/-- Python `a or b` on optional strings: `a` if truthy, else `b`. -/
def pyOr (a b : Option String) : Option String :=
  if truthyStr a then a else b

/-- A concrete stand-in date parser used by witnesses: a nonempty all-digit
string parses to the decimal Nat it denotes, anything else fails. -/
def parseDecimal (s : String) : Option Nat :=
  if s.data ≠ [] ∧ s.data.all (fun c => c.isDigit) then
    some (s.data.foldl (fun n c => n * 10 + (c.toNat - 48)) 0)
  else none

/-- The effective-timestamp expression of apply_filters (line 160):
`e.get("Timestamp") or e.get("Date") or e.get("WeekStartDate")`. -/
def effectiveTs (e : Record) : Option String :=
  pyOr (pyOr (get e "Timestamp") (get e "Date")) (get e "WeekStartDate")

/-- The loop body of apply_filters (lines 160-168): whether record `e`
reaches `filtered.append(e)` rather than being skipped by a `continue`.
`parse` models `dateutil.parser.parse(..).date()`; a parse failure
(`none`) falls into `except: pass`, skipping the date checks. -/
def keepRecord (parse : String → Option Nat)
    (start_date end_date : Option Nat) (workout : Option String)
    (e : Record) : Bool :=
  let ts := effectiveTs e
  let dateExcl : Bool :=
    if truthyStr ts then
      match parse (ts.getD "") with
      | some e_date =>
          (start_date.any (fun s => decide (e_date < s))) ||
          (end_date.any (fun t => decide (t < e_date)))
      | none => false
    else false
  let workoutExcl : Bool :=
    truthyStr workout && truthyStr (get e "Workout") &&
      !((workout.getD "") == "All") && !(get e "Workout" == workout)
  !dateExcl && !workoutExcl

/-- Embedding of apply_filters (lines 157-169): a single pass over `entries`
appending exactly the records the loop body keeps, in input order. -/
def apply_filters (parse : String → Option Nat) (entries : List Record)
    (start_date end_date : Option Nat) (workout : Option String) :
    List Record :=
  match entries with
  | [] => []
  | e :: rest =>
      if keepRecord parse start_date end_date workout e then
        e :: apply_filters parse rest start_date end_date workout
      else
        apply_filters parse rest start_date end_date workout

theorem keepRecord_no_constraints (parse : String → Option Nat) (e : Record) :
    keepRecord parse none none none e = true := by
  unfold keepRecord
  cases h : truthyStr (effectiveTs e) <;>
    simp [h, truthyStr, Option.any] <;>
    cases parse ((effectiveTs e).getD "") <;> simp [Option.any]

/-- C1: apply_filters with no start date, no end date and no workout
constraint returns the input sequence unchanged, same records in the same
order. -/
theorem apply_filters_no_constraints_id (parse : String → Option Nat)
    (entries : List Record) :
    apply_filters parse entries none none none = entries := by
  induction entries with
  | nil => rfl
  | cons e rest ih =>
      simp [apply_filters, keepRecord_no_constraints, ih]

theorem apply_filters_singleton (parse : String → Option Nat) (e : Record)
    (start_date end_date : Option Nat) (workout : Option String) :
    apply_filters parse [e] start_date end_date workout =
      if keepRecord parse start_date end_date workout e then [e] else [] := by
  simp [apply_filters]

theorem keepRecord_parsed (parse : String → Option Nat) (e : Record) (d : Nat)
    (start_date end_date : Option Nat)
    (hts : truthyStr (effectiveTs e) = true)
    (hd : parse ((effectiveTs e).getD "") = some d) :
    keepRecord parse start_date end_date none e =
      (!(start_date.any fun s => decide (d < s)) &&
       !(end_date.any fun t => decide (t < d))) := by
  unfold keepRecord
  simp [hts, hd]

/-- C2: for a record whose effective date parses to `d`, and given start and
end dates, apply_filters (with no workout constraint) retains the record
exactly when `s ≤ d ≤ t`; with only a start date, exactly when `s ≤ d` (a
strictly earlier record is excluded); with only an end date, exactly when
`d ≤ t` (a strictly later record is excluded). -/
theorem apply_filters_closed_range (parse : String → Option Nat) (e : Record)
    (d s t : Nat)
    (hts : truthyStr (effectiveTs e) = true)
    (hd : parse ((effectiveTs e).getD "") = some d) :
    (apply_filters parse [e] (some s) (some t) none =
      if s ≤ d ∧ d ≤ t then [e] else []) ∧
    (apply_filters parse [e] (some s) none none =
      if s ≤ d then [e] else []) ∧
    (apply_filters parse [e] none (some t) none =
      if d ≤ t then [e] else []) := by
  refine ⟨?_, ?_, ?_⟩ <;>
    rw [apply_filters_singleton, keepRecord_parsed parse e d _ _ hts hd] <;>
    simp only [Option.any] <;>
    split_ifs <;>
    first
      | rfl
      | (exfalso; simp_all [Nat.not_lt, Nat.not_le])

/-- C2 witness: the record with effective date 5 is retained by the range
[1, 31]. -/
theorem apply_filters_closed_range_witness :
    truthyStr (effectiveTs [("Date", "5")]) = true ∧
    parseDecimal ((effectiveTs [("Date", "5")]).getD "") = some 5 ∧
    apply_filters parseDecimal [[("Date", "5")]] (some 1) (some 31) none
      = [[("Date", "5")]] := by
  refine ⟨by decide, by decide, ?_⟩
  have h := (apply_filters_closed_range parseDecimal [("Date", "5")] 5 1 31
    (by decide) (by decide)).1
  rw [h]
  norm_num

/-- C3: a record lacking a truthy Timestamp, Date and WeekStartDate value, or
whose effective-date value fails to parse, is never excluded by the
date-range constraint, for any start and end date (fail-open). -/
theorem apply_filters_fail_open (parse : String → Option Nat) (e : Record)
    (h : truthyStr (effectiveTs e) = false ∨ parse ((effectiveTs e).getD "") = none)
    (start_date end_date : Option Nat) :
    apply_filters parse [e] start_date end_date none = [e] := by
  rw [apply_filters_singleton]
  have hk : keepRecord parse start_date end_date none e = true := by
    unfold keepRecord
    rcases h with h | h
    · simp [h]
    · cases ht : truthyStr (effectiveTs e) <;> simp [ht, h]
  simp [hk]

/-- C3 witness: a record with none of the three date fields passes through a
date-range filter untouched. -/
theorem apply_filters_fail_open_witness :
    truthyStr (effectiveTs [("Feedback", "hello")]) = false ∧
    apply_filters parseDecimal [[("Feedback", "hello")]] (some 3) (some 9) none
      = [[("Feedback", "hello")]] :=
  ⟨by decide, apply_filters_fail_open parseDecimal [("Feedback", "hello")]
    (Or.inl (by decide)) (some 3) (some 9)⟩

/-- The amended effective-date rule of C4: the first of Timestamp, Date and
WeekStartDate whose value is present and non-empty wins; when all three are
absent or empty there is no effective date. -/
def firstNonEmptyField (e : Record) : Option String :=
  if truthyStr (get e "Timestamp") then get e "Timestamp"
  else if truthyStr (get e "Date") then get e "Date"
  else if truthyStr (get e "WeekStartDate") then get e "WeekStartDate"
  else none

/-- The truthy content of an optional string: the value when non-empty,
`none` otherwise.  keepRecord reads `effectiveTs` only through this
projection (`if ts:` guards the parse). -/
def truthyPart (o : Option String) : Option String :=
  if truthyStr o then o else none

/-- C4 counterexample: in a record whose Timestamp field is present but
empty next to a Date field, the effective date comes from Date, not from
the present Timestamp field: apply_filters excludes the record using the
Date value 50 even though the Timestamp value would fail to parse (and so
would have passed fail-open). -/
theorem effective_date_counterexample :
    get [("Timestamp", ""), ("Date", "50")] "Timestamp" = some "" ∧
    effectiveTs [("Timestamp", ""), ("Date", "50")] = some "50" ∧
    apply_filters parseDecimal [[("Timestamp", ""), ("Date", "50")]]
      (some 1) (some 10) none = [] := by
  decide

/-- C4 amended: the effective date is resolved by checking Timestamp, then
Date, then WeekStartDate, and the first field whose value is present and
NON-EMPTY wins; an absent or present-but-empty field is skipped, and if all
three are absent or empty the record has no effective date. -/
theorem effective_date_first_nonempty (e : Record) :
    truthyPart (effectiveTs e) = firstNonEmptyField e := by
  unfold truthyPart firstNonEmptyField effectiveTs pyOr
  cases h1 : truthyStr (get e "Timestamp") <;>
    cases h2 : truthyStr (get e "Date") <;>
      cases h3 : truthyStr (get e "WeekStartDate") <;>
        simp [h1, h2, h3]

/-- C5 counterexample: with workout constraint "Legs", a record that lacks a
Workout field is retained, although its Workout field does not equal
"Legs". -/
theorem workout_filter_counterexample :
    get [("Date", "5")] "Workout" ≠ some "Legs" ∧
    apply_filters parseDecimal [[("Date", "5")]] none none (some "Legs")
      = [[("Date", "5")]] := by
  decide

theorem keepRecord_workout_all (parse : String → Option Nat)
    (start_date end_date : Option Nat) (e : Record) :
    keepRecord parse start_date end_date (some "All") e =
      keepRecord parse start_date end_date none e := by
  unfold keepRecord
  simp

/-- C5 amended: the sentinel "All" makes the workout constraint a no-op
(same result as no constraint); a record carrying a non-empty Workout value
different from the given non-empty, non-sentinel value is excluded; but a
record whose Workout field is absent or empty is never excluded by the
workout constraint. -/
theorem workout_filter_amended (parse : String → Option Nat)
    (start_date end_date : Option Nat) :
    (∀ entries, apply_filters parse entries start_date end_date (some "All") =
        apply_filters parse entries start_date end_date none) ∧
    (∀ (w : String) (e : Record), w ≠ "" → w ≠ "All" →
        ∀ v, get e "Workout" = some v → v ≠ "" → v ≠ w →
          apply_filters parse [e] start_date end_date (some w) = []) ∧
    (∀ (w : String) (e : Record), truthyStr (get e "Workout") = false →
        apply_filters parse [e] start_date end_date (some w) =
          apply_filters parse [e] start_date end_date none) := by
  refine ⟨?_, ?_, ?_⟩
  · intro entries
    induction entries with
    | nil => rfl
    | cons e rest ih =>
        simp [apply_filters, keepRecord_workout_all, ih]
  · intro w e hw hall v hv hvne hvw
    rw [apply_filters_singleton]
    have hk : keepRecord parse start_date end_date (some w) e = false := by
      unfold keepRecord
      simp [hv, hw, hall, hvne, hvw]
    simp [hk]
  · intro w e hwk
    rw [apply_filters_singleton, apply_filters_singleton]
    have hk : keepRecord parse start_date end_date (some w) e =
        keepRecord parse start_date end_date none e := by
      unfold keepRecord
      simp [hwk]
    rw [hk]

/-- C5 witness: the "All" sentinel keeps a Push-workout record; the value
"Legs" excludes it. -/
theorem workout_filter_amended_witness :
    apply_filters parseDecimal [[("Workout", "Push")]] none none (some "All")
      = [[("Workout", "Push")]] ∧
    apply_filters parseDecimal [[("Workout", "Push")]] none none (some "Legs")
      = [] := by
  have h := workout_filter_amended parseDecimal none none
  constructor
  · rw [h.1 [[("Workout", "Push")]]]
    decide
  · exact h.2.1 "Legs" [("Workout", "Push")] (by decide) (by decide) "Push"
      (by decide) (by decide) (by decide)

/-- C6: for every input and every combination of constraints the output of
apply_filters is a sublist of the input: each output record is an unmodified
input record, appearing at most as often as in the input, in input order. -/
theorem apply_filters_sublist (parse : String → Option Nat)
    (entries : List Record) (start_date end_date : Option Nat)
    (workout : Option String) :
    List.Sublist (apply_filters parse entries start_date end_date workout) entries := by
  induction entries with
  | nil => simp [apply_filters]
  | cons e rest ih =>
      simp only [apply_filters]
      split
      · exact List.Sublist.cons₂ e ih
      · exact List.Sublist.cons e ih

/-- Logical table names of the six sheets created by ensure_sheets and
mirrored by init_local_storage. -/
inductive Table
  | coaches
  | clients
  | workouts
  | nutrition
  | progress
  | checkins
deriving DecidableEq

/-- In-memory fallback backend: one list of records per table, mirroring
the st.session_state "local_*" lists set up by init_local_storage
(lines 99-102). -/
structure LocalStore where
  local_coaches : List Record
  local_clients : List Record
  local_workouts : List Record
  local_nutrition : List Record
  local_progress : List Record
  local_checkins : List Record

/-- Reading a local table, mirroring the `st.session_state[...]` reads of
get_clients_for_coach and get_client_data. -/
def read_local (s : LocalStore) : Table → List Record
  | Table.coaches => s.local_coaches
  | Table.clients => s.local_clients
  | Table.workouts => s.local_workouts
  | Table.nutrition => s.local_nutrition
  | Table.progress => s.local_progress
  | Table.checkins => s.local_checkins

/-- Appending one record to a local table, mirroring
`st.session_state[...].append(record)`. -/
def append_local (s : LocalStore) (t : Table) (r : Record) : LocalStore :=
  match t with
  | Table.coaches => { s with local_coaches := s.local_coaches ++ [r] }
  | Table.clients => { s with local_clients := s.local_clients ++ [r] }
  | Table.workouts => { s with local_workouts := s.local_workouts ++ [r] }
  | Table.nutrition => { s with local_nutrition := s.local_nutrition ++ [r] }
  | Table.progress => { s with local_progress := s.local_progress ++ [r] }
  | Table.checkins => { s with local_checkins := s.local_checkins ++ [r] }

/-- Modelled from the spec: the remote tabular backend behind read_sheet and
append_row (lines 87-94) delegates to the external gspread worksheet API,
which is not part of this repository.  Per the spec, `read(table)` returns
all rows currently stored for the table in natural row order and
`append(table, record)` adds one row to that table. -/
structure RemoteStore where
  rows : Table → List Record

/-- Modelled from the spec: read_sheet returns all rows of the worksheet in
natural row order. -/
def read_sheet (s : RemoteStore) (t : Table) : List Record :=
  s.rows t

/-- Modelled from the spec: append_row adds the supplied row at the end of
the named worksheet and touches no other table. -/
def append_row (s : RemoteStore) (t : Table) (r : Record) : RemoteStore :=
  ⟨fun u => if u = t then s.rows u ++ [r] else s.rows u⟩

/-- C7: append followed by read on the same table yields the previous rows
with the appended record added at the end — so it occurs exactly once more
than before, every supplied field value intact — on both backends. -/
theorem append_then_read (rs : RemoteStore) (ls : LocalStore) (t : Table)
    (r : Record) :
    read_sheet (append_row rs t r) t = read_sheet rs t ++ [r] ∧
    read_local (append_local ls t r) t = read_local ls t ++ [r] ∧
    List.count r (read_sheet (append_row rs t r) t)
      = List.count r (read_sheet rs t) + 1 ∧
    List.count r (read_local (append_local ls t r) t)
      = List.count r (read_local ls t) + 1 := by
  have h1 : read_sheet (append_row rs t r) t = read_sheet rs t ++ [r] := by
    simp [read_sheet, append_row]
  have h2 : read_local (append_local ls t r) t = read_local ls t ++ [r] := by
    cases t <;> rfl
  refine ⟨h1, h2, ?_, ?_⟩ <;> simp [h1, h2, List.count_append]

/-- The two storage backends. -/
inductive Backend
  | googleSheets
  | localSession
deriving DecidableEq

/-- Process-wide state of the storage layer: the degraded-mode flag gs_ok,
assigned once at startup (lines 114-126), together with both backends. -/
structure Adapter where
  gs_ok : Bool
  remote : RemoteStore
  localState : LocalStore

/-- A read as every call site performs it (get_clients_for_coach,
get_client_data, the login and admin reads): `if gs_ok:` read the sheet,
`else:` read the session-state list. -/
def adapter_read (a : Adapter) (t : Table) : List Record :=
  if a.gs_ok then read_sheet a.remote t else read_local a.localState t

/-- An append as every call site performs it: `if gs_ok: append_row(...)`
else append to the session-state list. -/
def adapter_append (a : Adapter) (t : Table) (r : Record) : Adapter :=
  if a.gs_ok then { a with remote := append_row a.remote t r }
  else { a with localState := append_local a.localState t r }

/-- The backend an operation on table `t` touches: every call site branches
on the single flag gs_ok alone, never on the table. -/
def backend_used (a : Adapter) (_t : Table) : Backend :=
  if a.gs_ok then Backend.googleSheets else Backend.localSession

/-- C9: one boolean flag governs everything: any two tables use the same
backend under the same adapter state (all tables fall back together),
appends never change the flag (the choice made at startup is fixed for the
process lifetime), and every read is served entirely by the backend the
flag selects. -/
theorem single_backend_flag (a : Adapter) (t t' : Table) (r : Record) :
    backend_used a t = backend_used a t' ∧
    (adapter_append a t r).gs_ok = a.gs_ok ∧
    adapter_read a t = (match backend_used a t with
      | Backend.googleSheets => read_sheet a.remote t
      | Backend.localSession => read_local a.localState t) := by
  refine ⟨rfl, ?_, ?_⟩
  · unfold adapter_append
    split <;> rfl
  · unfold adapter_read backend_used
    split <;> rfl

/-- The hard-coded admin password constant (line 30). -/
def ADMIN_PASS : String := "bigc_admin_pass"

/-- The three roles offered by the sidebar radio button (line 258). -/
inductive Role
  | Admin
  | Coach
  | Client
deriving DecidableEq

/-- Outcome of a login attempt: the session role and user stored on
success, or the error message shown on rejection. -/
inductive LoginResult
  | success (role : String) (user : String)
  | error (msg : String)
deriving DecidableEq

/-- Mirrors `role_choice.lower()` on line 275 (and the literal "admin" of
line 264). -/
def roleLower : Role → String
  | Role.Admin => "admin"
  | Role.Coach => "coach"
  | Role.Client => "client"

/-- Whether some stored row matches the attempt, the embedding of the
row-selection `df[(df["Username"]==username_input)&(df["Password"]==
password_input)]` being non-empty (line 273). -/
def credential_match (rows : List Record) (u p : String) : Bool :=
  rows.any (fun r => get r "Username" == some u && get r "Password" == some p)

/-- The sidebar Login button handler (lines 261-278): for Admin the entered
password is compared against ADMIN_PASS and on success the session becomes
user "admin"; for Coach and Client the attempt is looked up in the stored
credential rows (coaches resp. clients table) and any mismatch is rejected
with the one generic message. -/
def login_handler (role : Role) (rows : List Record) (u p : String) :
    LoginResult :=
  match role with
  | Role.Admin =>
      if p == ADMIN_PASS then LoginResult.success "admin" "admin"
      else LoginResult.error "Wrong admin password"
  | _ =>
      if credential_match rows u p then LoginResult.success (roleLower role) u
      else LoginResult.error "Invalid credentials"

/-- C8: a Coach or Client login is accepted exactly when some stored row
matches both the username and the password by string equality, and every
mismatch — unknown user or wrong password alike — yields the same generic
invalid-credentials outcome. -/
theorem login_accept_iff_match (role : Role) (rows : List Record)
    (u p : String) (hrole : role ≠ Role.Admin) :
    (login_handler role rows u p = LoginResult.success (roleLower role) u ↔
      ∃ r ∈ rows, get r "Username" = some u ∧ get r "Password" = some p) ∧
    (¬(∃ r ∈ rows, get r "Username" = some u ∧ get r "Password" = some p) →
      login_handler role rows u p = LoginResult.error "Invalid credentials") := by
  have hmatch : credential_match rows u p = true ↔
      ∃ r ∈ rows, get r "Username" = some u ∧ get r "Password" = some p := by
    unfold credential_match
    simp [List.any_eq_true]
  have main : ∀ rs : String,
      ((if credential_match rows u p then LoginResult.success rs u
        else LoginResult.error "Invalid credentials") = LoginResult.success rs u ↔
        ∃ r ∈ rows, get r "Username" = some u ∧ get r "Password" = some p) ∧
      (¬(∃ r ∈ rows, get r "Username" = some u ∧ get r "Password" = some p) →
        (if credential_match rows u p then LoginResult.success rs u
         else LoginResult.error "Invalid credentials")
          = LoginResult.error "Invalid credentials") := by
    intro rs
    cases hcm : credential_match rows u p
    · rw [← hmatch]
      simp [hcm]
    · rw [← hmatch]
      simp [hcm]
  cases role with
  | Admin => exact absurd rfl hrole
  | Coach => exact main "coach"
  | Client => exact main "client"

/-- C8 witness: with the stored row (alice, x), the attempt (alice, x) is
accepted and the attempt (alice, y) is rejected with the generic message. -/
theorem login_accept_iff_match_witness :
    Role.Client ≠ Role.Admin ∧
    login_handler Role.Client [[("Username", "alice"), ("Password", "x")]]
      "alice" "x" = LoginResult.success "client" "alice" ∧
    login_handler Role.Client [[("Username", "alice"), ("Password", "x")]]
      "alice" "y" = LoginResult.error "Invalid credentials" := by
  refine ⟨by decide, ?_, ?_⟩
  · exact (login_accept_iff_match Role.Client
      [[("Username", "alice"), ("Password", "x")]] "alice" "x" (by decide)).1.mpr
      ⟨[("Username", "alice"), ("Password", "x")], by decide⟩
  · exact (login_accept_iff_match Role.Client
      [[("Username", "alice"), ("Password", "x")]] "alice" "y" (by decide)).2
      (by decide)

/-- C10: the Admin login outcome depends only on the entered password: it is
identical for any two usernames and any two credential tables (no table is
consulted), and it succeeds exactly when the password equals ADMIN_PASS. -/
theorem admin_login_ignores_username (rows rows2 : List Record)
    (u u2 p : String) :
    login_handler Role.Admin rows u p = login_handler Role.Admin rows2 u2 p ∧
    (login_handler Role.Admin rows u p = LoginResult.success "admin" "admin" ↔
      p = ADMIN_PASS) := by
  refine ⟨rfl, ?_⟩
  unfold login_handler
  by_cases hp : p = ADMIN_PASS <;> simp [hp]

end CoachingPlatform
